import Mathlib

/-!
Verification of the environment-composition module of `aircmd`
(`src/aircmd/actions/environments.py`) against its specification.

The dagger `Container` is embedded as an immutable list of layering
operations; every builder method appends one operation and returns a new
value, mirroring dagger's persistent-builder semantics.  Python string
primitives used by the source (`startswith`, `in`, `replace`, `split`,
slicing, `join`) are embedded as structurally recursive functions over
`List Char` so that every definition evaluates by kernel reduction.
-/

/-- Python `s.startswith(pre)`. -/
def pyStartsWith (s pre : String) : Bool :=
  pre.data.isPrefixOf s.data

/-- Python `s[n:]` (drop the first `n` characters). -/
def pyDrop (n : Nat) (s : String) : String :=
  String.mk (s.data.drop n)

/-- Substring test on character lists: does `pat` occur inside the list? -/
def listContainsSub (pat : List Char) : List Char → Bool
  | [] => pat.isEmpty
  | c :: rest => pat.isPrefixOf (c :: rest) || listContainsSub pat rest

/-- Python `pat in s` (substring containment). -/
def pyContains (s pat : String) : Bool :=
  listContainsSub pat.data s.data

/-- Strip `pat` from the front of a list, returning the remaining suffix. -/
def dropPrefixOpt : List Char → List Char → Option (List Char)
  | [], s => some s
  | _ :: _, [] => none
  | p :: ps, c :: cs => if p = c then dropPrefixOpt ps cs else none

/-- Fuel-indexed engine for `pyReplace`: replaces every non-overlapping
occurrence of `pat`, scanning left to right.  The fuel is the length of
the scanned list, so the recursion is structural and kernel-reducible. -/
def listReplaceFuel (pat rep : List Char) : Nat → List Char → List Char
  | _, [] => []
  | 0, s => s
  | Nat.succ fuel, c :: rest =>
    match dropPrefixOpt pat (c :: rest) with
    | some suffix => rep ++ listReplaceFuel pat rep fuel suffix
    | none => c :: listReplaceFuel pat rep fuel rest

/-- Python `s.replace(pat, rep)` for a non-empty pattern (the source only
replaces non-empty literals). -/
def pyReplace (s pat rep : String) : String :=
  if pat.data.isEmpty then s
  else String.mk (listReplaceFuel pat.data rep.data s.data.length s.data)

/-- Splitting a character list on a separator character, Python style:
the result always has one more group than there are separators. -/
def pySplitChar (sep : Char) : List Char → List (List Char)
  | [] => [[]]
  | c :: rest =>
    match pySplitChar sep rest with
    | [] => [[]]
    | grp :: more => if c = sep then [] :: grp :: more else (c :: grp) :: more

/-- Python `s.split("\n")`. -/
def pySplitLines (s : String) : List String :=
  (pySplitChar (Char.ofNat 10) s.data).map String.mk

/-- Python `sep.join(xs)`. -/
def pyJoin (sep : String) : List String → String
  | [] => ""
  | [x] => x
  | x :: y :: rest => x ++ sep ++ pyJoin sep (y :: rest)

/-- Collapse every run of consecutive hyphens to a single hyphen. -/
def collapseDashes : List Char → List Char
  | [] => []
  | c :: rest =>
    match collapseDashes rest with
    | [] => [c]
    | d :: ds => if c = '-' && d = '-' then d :: ds else c :: d :: ds

/-- Modelled from the spec: `slugify` is imported from `aircmd.actions.strings`,
which is not under `src/`.  Section 4.3 of the spec defines the slug
transform as lower-casing and collapsing non-alphanumeric runs to single
hyphens; this definition follows those words. -/
def slugify (s : String) : String :=
  String.mk (collapseDashes (s.data.map (fun c =>
    if c.isAlphanum then c.toLower else '-')))

/-- Modelled from the spec: `GlobalSettings` comes from `aircmd.models.base`,
which is not under `src/`.  Only the fields read by the embedded functions
are modelled, as abstract values. -/
structure GlobalSettings where
  DOCKER_DIND_IMAGE : String
  DOCKER_CLI_IMAGE : String
  DOCKER_VERSION : String
  GRADLE_BUILD_CACHE_PATH : String
  GRADLE_READ_ONLY_DEPENDENCY_CACHE_PATH : String
  DEFAULT_PYTHON_EXCLUDE : List String

/-- Dagger cache-volume handle: identified by its name, as produced by
`dagger_client.cache_volume(name)`. -/
structure CacheVolume where
  name : String
deriving DecidableEq

/-- Dagger cache sharing modes. -/
inductive CacheSharingMode where
  | shared
  | locked
  | exclusive
deriving DecidableEq

/-- Modelled from the spec: `get_repo_dir` is imported from
`aircmd.actions.pipelines`, which is not under `src/`.  Per the spec's
RepoSnapshot component it produces a filtered view of the source tree,
deterministic in the requested path and the include/exclude globs; a
`Directory` records exactly those inputs. -/
structure Directory where
  path : String
  includeGlobs : List String
  excludeGlobs : List String
deriving DecidableEq

/-- Modelled from the spec: the RepoSnapshot provider (`get_repo_dir` from
`aircmd.actions.pipelines`, not under `src/`). -/
def get_repo_dir (path : String) (includeGlobs : List String)
    (excludeGlobs : List String) : Directory :=
  ⟨path, includeGlobs, excludeGlobs⟩

/-- One dagger container-layering operation.  A service binding records the
bound daemon's own operation list. -/
inductive Op where
  | from_ (image : String)
  | withMountedCache (path : String) (volume : CacheVolume)
      (sharing : Option CacheSharingMode)
  | withMountedDirectory (path : String) (dir : Directory)
  | withMountedFile (path : String) (file : String)
  | withFile (path : String) (file : String)
  | withEnvVariable (name value : String)
  | withExposedPort (port : Nat)
  | withWorkdir (path : String)
  | withServiceBinding (alias_ : String) (daemon : List Op)
  | withExec (args : List String) (insecureRootCapabilities : Bool)

/-- Immutable container specification: the pending operation list, in
application order. -/
structure Container where
  ops : List Op

/-- The empty container produced by `dagger_client.container()`. -/
def Container.empty : Container := ⟨[]⟩

/-- Dagger `cache_volume(name)`. -/
def cache_volume (name : String) : CacheVolume := ⟨name⟩

def Container.from_ (c : Container) (image : String) : Container :=
  ⟨c.ops ++ [Op.from_ image]⟩

def Container.with_mounted_cache (c : Container) (path : String)
    (volume : CacheVolume) (sharing : Option CacheSharingMode) : Container :=
  ⟨c.ops ++ [Op.withMountedCache path volume sharing]⟩

def Container.with_mounted_directory (c : Container) (path : String)
    (dir : Directory) : Container :=
  ⟨c.ops ++ [Op.withMountedDirectory path dir]⟩

def Container.with_mounted_file (c : Container) (path : String)
    (file : String) : Container :=
  ⟨c.ops ++ [Op.withMountedFile path file]⟩

def Container.with_file (c : Container) (path : String) (file : String) :
    Container :=
  ⟨c.ops ++ [Op.withFile path file]⟩

def Container.with_env_variable (c : Container) (name value : String) :
    Container :=
  ⟨c.ops ++ [Op.withEnvVariable name value]⟩

def Container.with_exposed_port (c : Container) (port : Nat) : Container :=
  ⟨c.ops ++ [Op.withExposedPort port]⟩

def Container.with_workdir (c : Container) (path : String) : Container :=
  ⟨c.ops ++ [Op.withWorkdir path]⟩

def Container.with_service_binding (c : Container) (alias_ : String)
    (daemon : Container) : Container :=
  ⟨c.ops ++ [Op.withServiceBinding alias_ daemon.ops]⟩

def Container.with_exec (c : Container) (args : List String)
    (insecureRootCapabilities : Bool) : Container :=
  ⟨c.ops ++ [Op.withExec args insecureRootCapabilities]⟩

/-!
Embeddings of the source functions of
`src/aircmd/actions/environments.py`.  The Python `context` argument only
supplies the dagger client (modelled by `Container.empty` and
`cache_volume`) and a logger (modelled in the image-load trace), so it is
not an explicit parameter here.
-/

/-- Embedding of `with_python_base` (environments.py lines 20-44).  The
`ValueError` raised for a non-python image is modelled as `Except.error`
carrying the exception message. -/
def with_python_base (python_image_name : String) : Except String Container :=
  if !(pyStartsWith python_image_name "python:3") then
    Except.error "You have to use a python image to build the python base environment"
  else
    let pip_cache : CacheVolume := cache_volume "pip_cache"
    Except.ok
      (((Container.empty.from_ python_image_name).with_mounted_cache
          "/root/.cache/pip" pip_cache none).with_exec
        ["pip", "install", "--upgrade", "pip"] false)

/-- Embedding of `with_python_package` (environments.py lines 63-90).
`exclude` is `none` when the caller omits the argument; the Python
truthiness test `if exclude:` also treats an empty list as absent. -/
def with_python_package (settings : GlobalSettings)
    (python_environment : Container) (package_source_code_path : String)
    (exclude : Option (List String)) : Container :=
  let excludeResolved : List String :=
    match exclude with
    | some e => if e ≠ [] then settings.DEFAULT_PYTHON_EXCLUDE ++ e
                else settings.DEFAULT_PYTHON_EXCLUDE
    | none => settings.DEFAULT_PYTHON_EXCLUDE
  let package_source_code_directory : Directory :=
    get_repo_dir package_source_code_path [] excludeResolved
  (python_environment.with_mounted_directory
      ("/" ++ package_source_code_path)
      package_source_code_directory).with_workdir
    ("/" ++ package_source_code_path)

/-- Loop body of the editable-requirements scan in
`with_installed_python_package` (environments.py lines 118-123): a line
starting with the marker `-e .` mounts the referenced local dependency. -/
def editableMountStep (settings : GlobalSettings)
    (package_source_code_path : String) (c : Container) (line : String) :
    Container :=
  if pyStartsWith line "-e ." then
    let local_dependency_path :=
      package_source_code_path ++ "/" ++ pyDrop 3 line
    c.with_mounted_directory ("/" ++ local_dependency_path)
      (get_repo_dir local_dependency_path [] settings.DEFAULT_PYTHON_EXCLUDE)
  else c

/-- Embedding of `with_installed_python_package` (environments.py lines
93-133).  The awaited `get_file_contents(container, "requirements.txt")`
result is an explicit parameter (`get_file_contents` comes from
`aircmd.actions.pipelines`, not under `src/`): `none` models an absent
manifest, `some s` its contents.  The walrus test
`if requirements_txt := ...` is Python truthiness, so an empty string
behaves like an absent file. -/
def with_installed_python_package (settings : GlobalSettings)
    (python_environment : Container) (package_source_code_path : String)
    (additional_dependency_groups : Option (List String))
    (exclude : Option (List String)) (requirements_txt : Option String) :
    Container :=
  let install_local_requirements_cmd :=
    ["python", "-m", "pip", "install", "-r", "requirements.txt"]
  let install_connector_package_cmd := ["python", "-m", "pip", "install", "."]
  let container := with_python_package settings python_environment
    package_source_code_path exclude
  let container :=
    match requirements_txt with
    | some req =>
      if req ≠ "" then
        ((pySplitLines req).foldl
            (editableMountStep settings package_source_code_path)
            container).with_exec install_local_requirements_cmd false
      else container
    | none => container
  let container := container.with_exec install_connector_package_cmd false
  match additional_dependency_groups with
  | some groups =>
    if groups ≠ [] then
      container.with_exec
        (install_connector_package_cmd.dropLast
          ++ [install_connector_package_cmd.getLast!
              ++ "[" ++ pyJoin "," groups ++ "]"]) false
    else container
  | none => container

/-- Embedding of `with_debian_packages` (environments.py lines 149-160). -/
def with_debian_packages (base_container : Container)
    (packages_to_install : List String) : Container :=
  let update_packages_command := ["apt-get", "update"]
  let package_install_command := ["apt-get", "install", "-y"]
  (base_container.with_exec update_packages_command false).with_exec
    (package_install_command ++ packages_to_install) false

/-- Embedding of `with_pip_packages` (environments.py lines 163-173). -/
def with_pip_packages (base_container : Container)
    (packages_to_install : List String) : Container :=
  let package_install_command := ["pip", "install"]
  base_container.with_exec (package_install_command ++ packages_to_install)
    false

/-- Embedding of `with_dockerd_service` (environments.py lines 175-204).
`if docker_service_name:` is Python truthiness: an empty string counts as
no service name. -/
def with_dockerd_service (settings : GlobalSettings)
    (shared_volume : Option (String × CacheVolume))
    (docker_service_name : Option String) : Container :=
  let docker_lib_volume_name :=
    match shared_volume with
    | some sv => sv.1 ++ "-docker-lib"
    | none => "docker-lib"
  let docker_lib_volume_name :=
    match docker_service_name with
    | some n => if n = "" then docker_lib_volume_name
                else docker_lib_volume_name ++ "-" ++ slugify n
    | none => docker_lib_volume_name
  let dind :=
    (Container.empty.from_ settings.DOCKER_DIND_IMAGE).with_mounted_cache
      "/var/lib/docker" (cache_volume docker_lib_volume_name)
      (some CacheSharingMode.shared)
  let dind :=
    match shared_volume with
    | some sv => dind.with_mounted_cache sv.1 sv.2 none
    | none => dind
  (dind.with_exposed_port 2375).with_exec
    ["dockerd", "--log-level=error", "--host=tcp://0.0.0.0:2375", "--tls=false"]
    true

/-- Embedding of `with_bound_docker_host` (environments.py lines 207-233). -/
def with_bound_docker_host (settings : GlobalSettings) (container : Container)
    (shared_volume : Option (String × CacheVolume))
    (docker_service_name : Option String) : Container :=
  let dockerd := with_dockerd_service settings shared_volume docker_service_name
  let docker_lib_volume_name :=
    match shared_volume with
    | some sv => sv.1 ++ "-docker-lib"
    | none => "docker-lib"
  let docker_hostname := docker_lib_volume_name
  let docker_hostname :=
    match docker_service_name with
    | some n => if n = "" then docker_hostname
                else docker_hostname ++ "-" ++ slugify n
    | none => docker_hostname
  let bound :=
    (container.with_env_variable "DOCKER_HOST"
        ("tcp://" ++ docker_hostname ++ ":2375")).with_service_binding
      docker_hostname dockerd
  match shared_volume with
  | some sv => bound.with_mounted_cache sv.1 sv.2 none
  | none => bound

/-- Embedding of `with_docker_cli` (environments.py lines 236-250). -/
def with_docker_cli (settings : GlobalSettings)
    (shared_volume : Option (String × CacheVolume))
    (docker_service_name : Option String) : Container :=
  let docker_cli := Container.empty.from_ settings.DOCKER_CLI_IMAGE
  with_bound_docker_host settings docker_cli shared_volume docker_service_name

/-- Embedding of `with_gradle` (environments.py lines 253-319). -/
def with_gradle (settings : GlobalSettings)
    (sources_to_include : Option (List String)) (bind_to_docker_host : Bool)
    (docker_service_name : Option String) : Container :=
  let includeList : List String :=
    [".root", ".env", "build.gradle", "deps.toml", "gradle.properties",
     "gradle", "gradlew", "LICENSE_SHORT", "publish-repositories.gradle",
     "settings.gradle", "build.gradle", "tools/gradle",
     "spotbugs-exclude-filter-file.xml", "buildSrc",
     "tools/bin/build_image.sh", "tools/lib/lib.sh"]
  let includeList :=
    match sources_to_include with
    | some s => if s ≠ [] then includeList ++ s else includeList
    | none => includeList
  let gradle_dependency_cache : CacheVolume :=
    cache_volume "gradle-dependencies-caching"
  let gradle_build_cache : CacheVolume := cache_volume "gradle-build-cache"
  let shared_tmp_volume : String × CacheVolume :=
    ("/tmp", cache_volume "share-tmp-gradle")
  let openjdk_with_docker :=
    ((((((((((((Container.empty.from_ "openjdk:17.0.1-jdk-slim").with_exec
        ["apt-get", "update"] false).with_exec
        ["apt-get", "install", "-y", "curl", "jq", "rsync"]
        false).with_env_variable "VERSION"
        settings.DOCKER_VERSION).with_exec
        ["sh", "-c", "curl -fsSL https://get.docker.com | sh"]
        false).with_env_variable "GRADLE_HOME" "/root/.gradle").with_exec
        ["mkdir", "/airbyte"] false).with_workdir
        "/airbyte").with_mounted_directory "/airbyte"
        (get_repo_dir "." includeList [])).with_exec
        ["mkdir", "-p", settings.GRADLE_READ_ONLY_DEPENDENCY_CACHE_PATH]
        false).with_mounted_cache settings.GRADLE_BUILD_CACHE_PATH
        gradle_build_cache
        (some CacheSharingMode.locked)).with_mounted_cache
        settings.GRADLE_READ_ONLY_DEPENDENCY_CACHE_PATH
        gradle_dependency_cache none).with_env_variable "GRADLE_RO_DEP_CACHE"
      settings.GRADLE_READ_ONLY_DEPENDENCY_CACHE_PATH
  if bind_to_docker_host then
    with_bound_docker_host settings openjdk_with_docker
      (some shared_tmp_volume) docker_service_name
  else openjdk_with_docker

/-- Embedding of `with_poetry` (environments.py lines 354-369).  The result
of the `with_mounted_cache` call on line 367 is bound but never used, as
in the source, where the statement's value is discarded. -/
def with_poetry : Except String Container :=
  match with_python_base "python:3.9" with
  | Except.error e => Except.error e
  | Except.ok python_base_environment =>
    let python_with_git := with_debian_packages python_base_environment ["git"]
    let python_with_poetry := with_pip_packages python_with_git ["poetry"]
    let poetry_cache : CacheVolume := cache_volume "poetry_cache"
    let _unused := python_with_poetry.with_mounted_cache
      "/root/.cache/pypoetry" poetry_cache (some CacheSharingMode.shared)
    Except.ok python_with_poetry

/-- Observable event of `load_image_to_docker_host`: a docker command whose
result the function awaits, or an informational log line. -/
inductive LoadEvent where
  | ranCommand (args : List String)
  | loggedInfo (msg : String)
deriving DecidableEq

/-- Responses of the remote daemon consumed by
`load_image_to_docker_host`: the awaited exit code of the pre-removal
command, and the stdout (or failure) of the load and tag commands. -/
structure LoadResponses where
  removalCode : Nat
  loadStdout : Except String String
  tagStdout : Except String String

/-- Embedding of `load_image_to_docker_host` (environments.py lines
322-351).  The random tar name is the `uuid` parameter; the awaited remote
results are supplied through `responses` (`with_exit_code` comes from
`aircmd.actions.pipelines`, not under `src/`; in dagger a failing awaited
`stdout()` raises, modelled as `Except.error`).  The result is the ordered
trace of awaited commands and log lines, or the propagated failure. -/
def load_image_to_docker_host (settings : GlobalSettings) (tar_file : String)
    (image_tag : String) (docker_service_name : Option String)
    (uuid : String) (responses : LoadResponses) :
    Except String (List LoadEvent) :=
  let tar_name := uuid ++ ".tar"
  let _docker_cli :=
    (with_docker_cli settings none docker_service_name).with_mounted_file
      tar_name tar_file
  let removalEvents : List LoadEvent :=
    [LoadEvent.ranCommand ["docker", "image", "rm", image_tag]]
      ++ (if responses.removalCode = 0 then
            [LoadEvent.loggedInfo ("Removed an existing image tagged " ++ image_tag)]
          else [])
  match responses.loadStdout with
  | Except.error e => Except.error e
  | Except.ok image_load_output =>
    let loadEvents := removalEvents
      ++ [LoadEvent.ranCommand ["docker", "load", "--input", tar_name],
          LoadEvent.loggedInfo image_load_output]
    if pyContains image_load_output "sha256:" then
      let image_id :=
        pyReplace (pyReplace image_load_output "\n" "")
          "Loaded image ID: sha256:" ""
      match responses.tagStdout with
      | Except.error e => Except.error e
      | Except.ok docker_tag_output =>
        Except.ok (loadEvents
          ++ [LoadEvent.ranCommand ["docker", "tag", image_id, image_tag],
              LoadEvent.loggedInfo docker_tag_output])
    else Except.ok loadEvents

/-!
Observation helpers over container specifications, used to state the
claims.
-/

/-- The value the container's last `DOCKER_HOST`-style assignment gives to
an environment variable. -/
def Container.envVar (c : Container) (name : String) : Option String :=
  (c.ops.filterMap fun op =>
    match op with
    | Op.withEnvVariable n v => if n = name then some v else none
    | _ => none).getLast?

/-- The hostname registered by the container's most recent service
binding. -/
def Container.lastServiceBindingAlias (c : Container) : Option String :=
  (c.ops.filterMap fun op =>
    match op with
    | Op.withServiceBinding h _ => some h
    | _ => none).getLast?

/-- The name of the volume of the first cache mounted at `path`. -/
def Container.storageVolumeAt (c : Container) (path : String) :
    Option String :=
  (c.ops.filterMap fun op =>
    match op with
    | Op.withMountedCache p vol _ => if p = path then some vol.name else none
    | _ => none).head?

/-- The sharing argument of the first cache mount of the volume named
`v` (`some none` means the mount exists but passes no sharing mode). -/
def Container.cacheSharingOfVolume (c : Container) (v : String) :
    Option (Option CacheSharingMode) :=
  (c.ops.filterMap fun op =>
    match op with
    | Op.withMountedCache _ vol sh => if vol.name = v then some sh else none
    | _ => none).head?

/-- Number of executed commands whose argument list is exactly `cmd`. -/
def Container.execCount (c : Container) (cmd : List String) : Nat :=
  (c.ops.filter fun op =>
    match op with
    | Op.withExec args _ => args == cmd
    | _ => false).length

/-- Whether some cache mount of the container uses the volume named `v`. -/
def Container.mountsVolume (c : Container) (v : String) : Bool :=
  c.ops.any fun op =>
    match op with
    | Op.withMountedCache _ vol _ => vol.name == v
    | _ => false

/-- Whether a load event is an issued `docker tag` command. -/
def isDockerTagCmd : LoadEvent → Bool
  | LoadEvent.ranCommand args => args.take 2 == ["docker", "tag"]
  | LoadEvent.loggedInfo _ => false

/-- The daemon hostname (equivalently, daemon storage-volume name) that
`with_bound_docker_host` and `with_dockerd_service` both derive from the
shared-volume mount path and the service name; factored out for the
statements of lemmas about the two functions. -/
def bindHostname (svPath : Option String) (n : Option String) : String :=
  let base :=
    match svPath with
    | some p => p ++ "-docker-lib"
    | none => "docker-lib"
  match n with
  | some s => if s = "" then base else base ++ "-" ++ slugify s
  | none => base

/-- The trailing operations `with_installed_python_package` appends for the
extra dependency groups (environments.py lines 128-131). -/
def extraGroupsOps (adg : Option (List String)) : List Op :=
  match adg with
  | some groups =>
    if groups ≠ [] then
      [Op.withExec ["python", "-m", "pip", "install",
        ".[" ++ pyJoin "," groups ++ "]"] false]
    else []
  | none => []

/-- Concrete settings used by the closed counterexample and witness
statements. -/
def sampleSettings : GlobalSettings :=
  ⟨"docker:dind", "docker:cli", "20.10.23", "/root/.gradle/build-cache",
   "/root/gradle_dependency_cache", ["**/.venv", "**/__pycache__"]⟩

/-- Second concrete settings value, differing from `sampleSettings`, for
determinism statements across distinct engine configurations. -/
def sampleSettings2 : GlobalSettings :=
  ⟨"docker:24-dind", "docker:24-cli", "24.0.2", "/gradle/build",
   "/gradle/deps", []⟩

/-!
Helper lemmas.
-/

/-- Appending strings appends their character data. -/
theorem str_data_append (a b : String) : (a ++ b).data = a.data ++ b.data := by
  cases a; cases b; rfl

/-- Strings with equal character data are equal. -/
theorem str_ext {a b : String} (h : a.data = b.data) : a = b := by
  cases a; cases b; exact congrArg String.mk h

/-- String concatenation is left-cancellative. -/
theorem str_append_cancel_left {a b c : String} (h : a ++ b = a ++ c) :
    b = c := by
  apply str_ext
  have hd := congrArg String.data h
  rw [str_data_append, str_data_append] at hd
  exact List.append_cancel_left hd

/-- A string is never equal to itself extended by a non-trivial suffix
that starts with a hyphen. -/
theorem str_ne_append_dash (a s : String) : a ≠ a ++ "-" ++ s := by
  intro h
  have hd := congrArg String.data h
  rw [str_data_append, str_data_append] at hd
  have hdash : ("-" : String).data = ['-'] := rfl
  rw [hdash] at hd
  have hlen := congrArg List.length hd
  simp only [List.length_append, List.length_cons, List.length_nil] at hlen
  omega

/-- Operation-list shape of `with_dockerd_service`: the daemon pulls the
dind image, mounts its storage volume (named by `bindHostname`) at
`/var/lib/docker` with shared sharing, mounts the optional shared volume,
exposes port 2375 and starts `dockerd`. -/
theorem with_dockerd_service_ops (settings : GlobalSettings)
    (sv : Option (String × CacheVolume)) (n : Option String) :
    (with_dockerd_service settings sv n).ops
      = [Op.from_ settings.DOCKER_DIND_IMAGE,
         Op.withMountedCache "/var/lib/docker"
           ⟨bindHostname (Option.map Prod.fst sv) n⟩
           (some CacheSharingMode.shared)]
        ++ (match sv with
            | some v => [Op.withMountedCache v.1 v.2 none]
            | none => [])
        ++ [Op.withExposedPort 2375,
            Op.withExec
              ["dockerd", "--log-level=error", "--host=tcp://0.0.0.0:2375",
               "--tls=false"] true] := by
  cases sv <;> cases n <;>
    simp [with_dockerd_service, bindHostname, cache_volume, Container.empty,
      Container.from_, Container.with_mounted_cache, Container.with_exposed_port,
      Container.with_exec]

/-- Operation-list shape of `with_bound_docker_host`: the client keeps its
own operations, then sets `DOCKER_HOST` to the computed hostname, binds
that hostname to the daemon spec, and mounts the optional shared
volume. -/
theorem with_bound_docker_host_ops (settings : GlobalSettings)
    (c : Container) (sv : Option (String × CacheVolume)) (n : Option String) :
    (with_bound_docker_host settings c sv n).ops
      = c.ops
        ++ [Op.withEnvVariable "DOCKER_HOST"
              ("tcp://" ++ bindHostname (Option.map Prod.fst sv) n ++ ":2375"),
            Op.withServiceBinding (bindHostname (Option.map Prod.fst sv) n)
              (with_dockerd_service settings sv n).ops]
        ++ (match sv with
            | some v => [Op.withMountedCache v.1 v.2 none]
            | none => []) := by
  cases sv <;> cases n <;>
    simp [with_bound_docker_host, bindHostname, Container.with_env_variable,
      Container.with_service_binding, Container.with_mounted_cache]

/-- The most recent service-binding alias of a bound client is the
computed hostname. -/
theorem bound_alias_eq (settings : GlobalSettings) (c : Container)
    (sv : Option (String × CacheVolume)) (n : Option String) :
    (with_bound_docker_host settings c sv n).lastServiceBindingAlias
      = some (bindHostname (Option.map Prod.fst sv) n) := by
  unfold Container.lastServiceBindingAlias
  rw [with_bound_docker_host_ops]
  cases sv <;>
    simp [List.filterMap_append, List.getLast?_concat]

/-- The most recent `DOCKER_HOST` value of a bound client points at the
computed hostname on port 2375. -/
theorem bound_env_eq (settings : GlobalSettings) (c : Container)
    (sv : Option (String × CacheVolume)) (n : Option String) :
    (with_bound_docker_host settings c sv n).envVar "DOCKER_HOST"
      = some ("tcp://" ++ bindHostname (Option.map Prod.fst sv) n ++ ":2375") := by
  unfold Container.envVar
  rw [with_bound_docker_host_ops]
  cases sv <;>
    simp [List.filterMap_append, List.getLast?_concat]

/-- The daemon's storage volume at `/var/lib/docker` is named by the
computed hostname. -/
theorem daemon_storage_eq (settings : GlobalSettings)
    (sv : Option (String × CacheVolume)) (n : Option String) :
    (with_dockerd_service settings sv n).storageVolumeAt "/var/lib/docker"
      = some (bindHostname (Option.map Prod.fst sv) n) := by
  unfold Container.storageVolumeAt
  rw [with_dockerd_service_ops]
  cases sv <;> simp

/-- Distinct slugs yield distinct computed hostnames for any common
shared-volume path. -/
theorem bindHostname_inj (p : Option String) {n1 n2 : String}
    (h : slugify n1 ≠ slugify n2) :
    bindHostname p (some n1) ≠ bindHostname p (some n2) := by
  simp only [bindHostname]
  by_cases h1 : n1 = ""
  · subst h1
    by_cases h2 : n2 = ""
    · subst h2; exact absurd rfl h
    · simp only [if_pos rfl, if_neg h2]
      exact str_ne_append_dash _ _
  · by_cases h2 : n2 = ""
    · subst h2
      simp only [if_neg h1, if_pos rfl]
      exact fun hx => str_ne_append_dash _ _ hx.symm
    · simp only [if_neg h1, if_neg h2]
      exact fun hx => h (str_append_cancel_left hx)

/-- Folding the editable-requirements loop body over a list of manifest
lines appends exactly one directory mount per `-e .` line, in list
order. -/
theorem foldl_editable_ops (settings : GlobalSettings) (path : String)
    (lines : List String) (c : Container) :
    (lines.foldl (editableMountStep settings path) c).ops
      = c.ops ++ (lines.filter (fun l => pyStartsWith l "-e .")).map
          (fun line =>
            Op.withMountedDirectory ("/" ++ (path ++ "/" ++ pyDrop 3 line))
              (get_repo_dir (path ++ "/" ++ pyDrop 3 line) []
                settings.DEFAULT_PYTHON_EXCLUDE)) := by
  induction lines generalizing c with
  | nil => simp
  | cons l ls ih =>
    simp only [List.foldl_cons, List.filter_cons]
    cases hl : pyStartsWith l "-e ." with
    | true =>
      rw [ih]
      simp [editableMountStep, hl, Container.with_mounted_directory]
    | false =>
      rw [ih]
      simp [editableMountStep, hl]

/-- Claim C1: for every shared volume and service name, the hostname that
`with_bound_docker_host` writes into the client's `DOCKER_HOST` variable
and registers as the service-binding alias equals, as a string, the name
of the cache volume `with_dockerd_service` mounts at `/var/lib/docker`
for the daemon; and any two calls agreeing on the shared-volume path and
the service name compute byte-identical hostname and storage-volume-name
strings. -/
theorem C1_hostname_equals_daemon_storage (settings : GlobalSettings)
    (c : Container) (sv : Option (String × CacheVolume)) (n : Option String) :
    (∃ h : String,
      (with_bound_docker_host settings c sv n).envVar "DOCKER_HOST"
          = some ("tcp://" ++ h ++ ":2375")
        ∧ (with_bound_docker_host settings c sv n).lastServiceBindingAlias
          = some h
        ∧ (with_dockerd_service settings sv n).storageVolumeAt
            "/var/lib/docker" = some h)
    ∧ ∀ (settings2 : GlobalSettings) (c2 : Container)
        (sv2 : Option (String × CacheVolume)),
        Option.map Prod.fst sv = Option.map Prod.fst sv2 →
        (with_bound_docker_host settings c sv n).lastServiceBindingAlias
            = (with_bound_docker_host settings2 c2 sv2 n).lastServiceBindingAlias
          ∧ (with_dockerd_service settings sv n).storageVolumeAt
              "/var/lib/docker"
            = (with_dockerd_service settings2 sv2 n).storageVolumeAt
                "/var/lib/docker" := by
  constructor
  · exact ⟨bindHostname (Option.map Prod.fst sv) n, bound_env_eq .., bound_alias_eq .., daemon_storage_eq ..⟩
  · intro settings2 c2 sv2 hp
    rw [bound_alias_eq, bound_alias_eq, daemon_storage_eq, daemon_storage_eq, hp]
    exact ⟨rfl, rfl⟩

/-- Witness for C1: two calls with distinct settings, client containers
and cache-volume handles but the same shared-volume path `/tmp` and the
same service name compute identical hostnames and storage names. -/
theorem C1_hostname_equals_daemon_storage_witness :
    (with_bound_docker_host sampleSettings ⟨[]⟩ (some ("/tmp", ⟨"v1"⟩))
          (some "My Svc")).lastServiceBindingAlias
        = (with_bound_docker_host sampleSettings2 ⟨[Op.withWorkdir "/x"]⟩
            (some ("/tmp", ⟨"v2"⟩)) (some "My Svc")).lastServiceBindingAlias
      ∧ (with_dockerd_service sampleSettings (some ("/tmp", ⟨"v1"⟩))
            (some "My Svc")).storageVolumeAt "/var/lib/docker"
        = (with_dockerd_service sampleSettings2 (some ("/tmp", ⟨"v2"⟩))
            (some "My Svc")).storageVolumeAt "/var/lib/docker" :=
  (C1_hostname_equals_daemon_storage sampleSettings ⟨[]⟩
      (some ("/tmp", ⟨"v1"⟩)) (some "My Svc")).2
    sampleSettings2 ⟨[Op.withWorkdir "/x"]⟩ (some ("/tmp", ⟨"v2"⟩)) rfl

/-- The install-from-source command literal, with its last element
removed. -/
theorem connector_cmd_dropLast :
    (["python", "-m", "pip", "install", "."] : List String).dropLast
      = ["python", "-m", "pip", "install"] := rfl

/-- The last element of the install-from-source command literal. -/
theorem connector_cmd_getLast :
    (["python", "-m", "pip", "install", "."] : List String).getLast! = "." :=
  rfl

/-- Claim C2 (amended): for every manifest whose `requirements.txt`
content is non-empty (Python truthiness treats an empty file like an
absent one) and contains the editable-local lines `[p1, ..., pN]` in
order, `with_installed_python_package` adds exactly those N
local-dependency mounts in manifest order, then issues the non-editable
`pip install -r requirements.txt` command exactly once after all N
mounts, then the unconditional source install and the optional
extra-groups install. -/
theorem C2_editable_mounts_then_manifest_install (settings : GlobalSettings)
    (env : Container) (path : String) (adg : Option (List String))
    (excl : Option (List String)) (s : String) (hs : s ≠ "") :
    (with_installed_python_package settings env path adg excl (some s)).ops
      = (with_python_package settings env path excl).ops
        ++ ((pySplitLines s).filter (fun l => pyStartsWith l "-e .")).map
            (fun line =>
              Op.withMountedDirectory ("/" ++ (path ++ "/" ++ pyDrop 3 line))
                (get_repo_dir (path ++ "/" ++ pyDrop 3 line) []
                  settings.DEFAULT_PYTHON_EXCLUDE))
        ++ [Op.withExec
              ["python", "-m", "pip", "install", "-r", "requirements.txt"]
              false]
        ++ [Op.withExec ["python", "-m", "pip", "install", "."] false]
        ++ extraGroupsOps adg := by
  cases adg with
  | none =>
    simp [with_installed_python_package, hs, Container.with_exec,
      foldl_editable_ops, extraGroupsOps, List.append_assoc]
  | some groups =>
    by_cases hg : groups = []
    · subst hg
      simp [with_installed_python_package, hs, Container.with_exec,
        foldl_editable_ops, extraGroupsOps, List.append_assoc]
    · simp [with_installed_python_package, hs, hg, Container.with_exec,
        foldl_editable_ops, extraGroupsOps, connector_cmd_dropLast,
        connector_cmd_getLast, List.append_assoc]

/-- Witness for C2: a concrete two-line manifest with one editable line
produces exactly the decomposed operation list. -/
theorem C2_editable_mounts_then_manifest_install_witness :
    (with_installed_python_package sampleSettings ⟨[]⟩ "pkg" none none
        (some "-e ./sib\nfoo")).ops
      = (with_python_package sampleSettings ⟨[]⟩ "pkg" none).ops
        ++ ((pySplitLines "-e ./sib\nfoo").filter
              (fun l => pyStartsWith l "-e .")).map
            (fun line =>
              Op.withMountedDirectory ("/" ++ ("pkg" ++ "/" ++ pyDrop 3 line))
                (get_repo_dir ("pkg" ++ "/" ++ pyDrop 3 line) []
                  sampleSettings.DEFAULT_PYTHON_EXCLUDE))
        ++ [Op.withExec
              ["python", "-m", "pip", "install", "-r", "requirements.txt"]
              false]
        ++ [Op.withExec ["python", "-m", "pip", "install", "."] false]
        ++ extraGroupsOps none :=
  C2_editable_mounts_then_manifest_install sampleSettings ⟨[]⟩ "pkg" none
    none "-e ./sib\nfoo" (by decide)

/-- Counterexample for C2 as frozen: a present but empty
`requirements.txt` has zero editable-local lines, yet the
install-from-manifest command is issued zero times, not exactly once —
Python truthiness short-circuits the whole manifest branch. -/
theorem C2_empty_manifest_counterexample :
    Container.execCount
        (with_installed_python_package sampleSettings ⟨[]⟩ "pkg" none none
          (some ""))
        ["python", "-m", "pip", "install", "-r", "requirements.txt"]
      = 0 ∧ (0 : Nat) ≠ 1 :=
  ⟨rfl, by decide⟩

/-- Counterexample for C3 as frozen: the service names `"A"` and `"a"`
are two different strings, yet the slug transform maps both to `"a"`, so
the two computed daemon hostnames (and storage-volume names) coincide
instead of being disjoint. -/
theorem C3_slug_collision_counterexample :
    ("A" : String) ≠ "a"
      ∧ (with_bound_docker_host sampleSettings ⟨[]⟩ none
            (some "A")).lastServiceBindingAlias
        = (with_bound_docker_host sampleSettings ⟨[]⟩ none
            (some "a")).lastServiceBindingAlias
      ∧ (with_dockerd_service sampleSettings none (some "A")).storageVolumeAt
            "/var/lib/docker"
        = (with_dockerd_service sampleSettings none (some "a")).storageVolumeAt
            "/var/lib/docker" :=
  ⟨by decide, rfl, rfl⟩

/-- Claim C3 (amended): for two calls to `with_bound_docker_host` with
the same shared volume and two service names whose slugified forms
differ, the two computed daemon hostnames are unequal, and so are the two
daemon storage-volume names.  (As frozen the claim fails: service names
differing only in case or punctuation slugify identically.) -/
theorem C3_distinct_slugs_disjoint_hostnames (s1 s2 : GlobalSettings)
    (c1 c2 : Container) (sv : Option (String × CacheVolume)) (n1 n2 : String)
    (h : slugify n1 ≠ slugify n2) :
    (with_bound_docker_host s1 c1 sv (some n1)).lastServiceBindingAlias
        ≠ (with_bound_docker_host s2 c2 sv (some n2)).lastServiceBindingAlias
      ∧ (with_dockerd_service s1 sv (some n1)).storageVolumeAt
            "/var/lib/docker"
        ≠ (with_dockerd_service s2 sv (some n2)).storageVolumeAt
            "/var/lib/docker" := by
  rw [bound_alias_eq, bound_alias_eq, daemon_storage_eq, daemon_storage_eq]
  have hi := bindHostname_inj (Option.map Prod.fst sv) h
  exact ⟨fun hx => hi (Option.some.inj hx), fun hx => hi (Option.some.inj hx)⟩

/-- Witness for C3 (amended): the service names `"app"` and `"gradle"`
slugify differently, so their hostnames and storage names differ. -/
theorem C3_distinct_slugs_disjoint_hostnames_witness :
    (with_bound_docker_host sampleSettings ⟨[]⟩ none
          (some "app")).lastServiceBindingAlias
        ≠ (with_bound_docker_host sampleSettings2 ⟨[]⟩ none
            (some "gradle")).lastServiceBindingAlias
      ∧ (with_dockerd_service sampleSettings none
            (some "app")).storageVolumeAt "/var/lib/docker"
        ≠ (with_dockerd_service sampleSettings2 none
            (some "gradle")).storageVolumeAt "/var/lib/docker" :=
  C3_distinct_slugs_disjoint_hostnames sampleSettings sampleSettings2 ⟨[]⟩
    ⟨[]⟩ none "app" "gradle" (by decide)

/-- Claim C4 (amended): every JVM build environment produced by
`with_gradle` mounts the `gradle-build-cache` volume with locked sharing
(at most one writer), and mounts the `gradle-dependencies-caching` volume
with no explicit sharing mode — the call passes no sharing argument, so
the mode is left to the engine default rather than being set to shared.
(As frozen the claim fails on its second half: no explicit shared mode is
requested for the dependency cache.) -/
theorem C4_gradle_cache_sharing (settings : GlobalSettings)
    (srcs : Option (List String)) (bind : Bool) (svc : Option String) :
    (with_gradle settings srcs bind svc).cacheSharingOfVolume
        "gradle-build-cache" = some (some CacheSharingMode.locked)
      ∧ (with_gradle settings srcs bind svc).cacheSharingOfVolume
        "gradle-dependencies-caching" = some none := by
  cases bind with
  | false =>
    constructor <;>
      simp [with_gradle, Container.cacheSharingOfVolume, Container.with_exec,
        Container.with_env_variable, Container.with_mounted_cache,
        Container.with_mounted_directory, Container.with_workdir,
        Container.from_, Container.empty, cache_volume]
  | true =>
    constructor <;>
      · simp only [with_gradle, if_true]
        rw [Container.cacheSharingOfVolume, with_bound_docker_host_ops]
        simp [Container.cacheSharingOfVolume, Container.with_exec,
          Container.with_env_variable, Container.with_mounted_cache,
          Container.with_mounted_directory, Container.with_workdir,
          Container.from_, Container.empty, cache_volume,
          List.filterMap_append]

/-- Counterexample for C4 as frozen: at concrete inputs the dependency
cache volume is mounted with no sharing argument (`some none`), which is
not an explicit shared mode. -/
theorem C4_dependency_cache_not_explicitly_shared :
    (with_gradle sampleSettings none false (some "gradle")).cacheSharingOfVolume
        "gradle-dependencies-caching" = some none
      ∧ (some (none : Option CacheSharingMode))
        ≠ some (some CacheSharingMode.shared) :=
  ⟨rfl, by decide⟩

/-- Claim C5 (code behavior at the failing input): when the load output
lacks both the `sha256:` marker and the target-tag report, the code
completes successfully with no tag command and surfaces no error — the
condition is silently skipped, contradicting the claim (and matching the
open question the spec flags). -/
theorem C5_unparseable_output_silently_skipped :
    load_image_to_docker_host sampleSettings "tarfile" "myimg:latest" none
        "u" ⟨1, Except.ok "something unexpected\n", Except.ok ""⟩
      = Except.ok
          [LoadEvent.ranCommand ["docker", "image", "rm", "myimg:latest"],
           LoadEvent.ranCommand ["docker", "load", "--input", "u.tar"],
           LoadEvent.loggedInfo "something unexpected\n"] := rfl

/-- Claim C6: with target tag `myimg:latest`, load output
`"Loaded image ID: sha256:abc123\n"` makes the loader issue exactly one
tag command, mapping image id `abc123` to `myimg:latest`; load output
`"Loaded image: myimg:latest\n"` (no `sha256:` marker) makes it issue no
tag command. -/
theorem C6_tag_command_iff_sha_marker :
    (load_image_to_docker_host sampleSettings "tarfile" "myimg:latest" none
          "u" ⟨1, Except.ok "Loaded image ID: sha256:abc123\n",
               Except.ok "tagged"⟩).map
        (fun evts => evts.filter isDockerTagCmd)
      = Except.ok
          [LoadEvent.ranCommand ["docker", "tag", "abc123", "myimg:latest"]]
    ∧ (load_image_to_docker_host sampleSettings "tarfile" "myimg:latest" none
          "u" ⟨1, Except.ok "Loaded image: myimg:latest\n",
               Except.ok "tagged"⟩).map
        (fun evts => evts.filter isDockerTagCmd)
      = Except.ok [] :=
  ⟨rfl, rfl⟩

/-- Claim C7: a non-zero exit of the prior-image removal command never
aborts `load_image_to_docker_host` — the load command is still awaited
and the call can still return successfully — whereas a failing load
command propagates its error to the caller. -/
theorem C7_removal_swallowed_load_propagated (settings : GlobalSettings)
    (tar tag : String) (svc : Option String) (u : String) (rc : Nat)
    (s t e : String) :
    (rc ≠ 0 →
      ∃ evts,
        load_image_to_docker_host settings tar tag svc u
            ⟨rc, Except.ok s, Except.ok t⟩ = Except.ok evts
          ∧ LoadEvent.ranCommand ["docker", "load", "--input", u ++ ".tar"]
            ∈ evts)
    ∧ ∀ tagResult : Except String String,
        load_image_to_docker_host settings tar tag svc u
          ⟨rc, Except.error e, tagResult⟩ = Except.error e := by
  constructor
  · intro _hrc
    simp only [load_image_to_docker_host]
    cases hsha : pyContains s "sha256:" with
    | true => exact ⟨_, rfl, by simp⟩
    | false => exact ⟨_, rfl, by simp⟩
  · intro tagResult
    rfl

/-- Witness for C7: with a failing removal (exit code 1) the load is
still awaited and the operation succeeds. -/
theorem C7_removal_swallowed_load_propagated_witness :
    ∃ evts,
      load_image_to_docker_host sampleSettings "t" "img:1" none "u"
          ⟨1, Except.ok "out\n", Except.ok "tg"⟩ = Except.ok evts
        ∧ LoadEvent.ranCommand ["docker", "load", "--input", "u" ++ ".tar"]
          ∈ evts :=
  (C7_removal_swallowed_load_propagated sampleSettings "t" "img:1" none "u"
      1 "out\n" "tg" "boom").1 (by decide)

/-- Claim C8: when the `requirements.txt` manifest cannot be read
(`get_file_contents` yields nothing), `with_installed_python_package`
raises no error, adds zero local-dependency mounts, issues no
install-from-manifest command, and still issues the unconditional
install-package-from-source command. -/
theorem C8_missing_manifest_short_circuits (settings : GlobalSettings)
    (env : Container) (path : String) (adg : Option (List String))
    (excl : Option (List String)) :
    (with_installed_python_package settings env path adg excl none).ops
      = (with_python_package settings env path excl).ops
        ++ [Op.withExec ["python", "-m", "pip", "install", "."] false]
        ++ extraGroupsOps adg := by
  cases adg with
  | none =>
    simp [with_installed_python_package, Container.with_exec, extraGroupsOps]
  | some groups =>
    by_cases hg : groups = []
    · subst hg
      simp [with_installed_python_package, Container.with_exec,
        extraGroupsOps]
    · simp [with_installed_python_package, hg, Container.with_exec,
        extraGroupsOps, connector_cmd_dropLast, connector_cmd_getLast,
        List.append_assoc]

/-- Claim C9: `with_python_base` fails with the validation error exactly
when the image name does not start with the `python:3` family prefix, and
on that path produces no container-construction step at all; for a
conforming name it returns the container that pulls the image, mounts
the `pip_cache` volume and runs the pip self-upgrade. -/
theorem C9_python_base_validation (name : String) :
    (pyStartsWith name "python:3" = false →
      with_python_base name
        = Except.error
            "You have to use a python image to build the python base environment")
    ∧ (pyStartsWith name "python:3" = true →
      with_python_base name
        = Except.ok
            ⟨[Op.from_ name,
              Op.withMountedCache "/root/.cache/pip" ⟨"pip_cache"⟩ none,
              Op.withExec ["pip", "install", "--upgrade", "pip"] false]⟩) := by
  constructor
  · intro h
    simp [with_python_base, h]
  · intro h
    simp [with_python_base, h, cache_volume, Container.empty,
      Container.from_, Container.with_mounted_cache, Container.with_exec]

/-- Witness for C9: a non-python image is rejected with the validation
error, and the default python image yields the three-step base
container. -/
theorem C9_python_base_validation_witness :
    with_python_base "node:18"
        = Except.error
            "You have to use a python image to build the python base environment"
      ∧ with_python_base "python:3.9-slim"
        = Except.ok
            ⟨[Op.from_ "python:3.9-slim",
              Op.withMountedCache "/root/.cache/pip" ⟨"pip_cache"⟩ none,
              Op.withExec ["pip", "install", "--upgrade", "pip"] false]⟩ :=
  ⟨(C9_python_base_validation "node:18").1 (by decide),
   (C9_python_base_validation "python:3.9-slim").2 (by decide)⟩

/-- Claim C10: `with_poetry` returns exactly the python base with git and
poetry installed; the `with_mounted_cache` call for the `poetry_cache`
volume is applied to an immutable value and its result discarded, so the
returned spec mounts no poetry cache volume. -/
theorem C10_poetry_cache_mount_discarded :
    with_poetry
        = Except.ok
            (with_pip_packages
              (with_debian_packages
                ⟨[Op.from_ "python:3.9",
                  Op.withMountedCache "/root/.cache/pip" ⟨"pip_cache"⟩ none,
                  Op.withExec ["pip", "install", "--upgrade", "pip"] false]⟩
                ["git"]) ["poetry"])
      ∧ with_poetry.map (fun c => c.mountsVolume "poetry_cache")
        = Except.ok false :=
  ⟨rfl, rfl⟩
